import Mathlib

/-!
Shallow embedding of the simulive playback-synchronization core of the
live-web repository: the server-time offset estimator (src/lib/serverTime.ts),
the session lifecycle state machine (src/hooks/useSessionState.ts), and the
drift corrector (src/components/StreamSync.tsx).

Clock values are rationals in milliseconds and playback positions are
rationals in seconds, matching the JavaScript number arithmetic at every
point the claims touch. JavaScript truthiness tests on an optional number
(`videoDuration && ...`, `video.duration && ...`) are modelled as
present-and-nonzero.
-/

/-- States of the session lifecycle machine (`SessionState` in
useSessionState.ts). -/
inductive SessionState where
  | loading
  | scheduled
  | countdown
  | starting
  | live
  | ended
  | error
  deriving DecidableEq

/-- Countdown threshold in seconds (`COUNTDOWN_THRESHOLD` in
useSessionState.ts). -/
def COUNTDOWN_THRESHOLD : ℚ := 60

/-- Starting transition duration in seconds (`STARTING_DURATION` in
useSessionState.ts). -/
def STARTING_DURATION : ℚ := 3

/-- JavaScript truthiness of the optional numeric duration:
`null`/`undefined` and `0` are falsy, any other number is truthy. -/
def durTruthy : Option ℚ → Bool
  | none => false
  | some d => d != 0

/-- Live offset in seconds (`getLiveOffset` in serverTime.ts):
`(serverNow - startTime) / 1000`. -/
def getLiveOffset (startTimeMs serverNowMs : ℚ) : ℚ :=
  (serverNowMs - startTimeMs) / 1000

/-- Lifecycle transition function (`calculateState` in useSessionState.ts),
as a pure function of its inputs: scheduled start (milliseconds since epoch,
`none` when absent), the active flag, the optional video duration (seconds),
and the authoritative current time (milliseconds). The branch on
`videoDuration && offset >= videoDuration` tests JavaScript truthiness of
the duration before the comparison. -/
def calculateState (scheduledStart : Option ℚ) (isActive : Bool)
    (videoDuration : Option ℚ) (serverNowMs : ℚ) : SessionState :=
  match scheduledStart with
  | none => .loading
  | some startMs =>
    if isActive = false then .loading
    else
      let offset := getLiveOffset startMs serverNowMs
      if offset < -COUNTDOWN_THRESHOLD then .scheduled
      else if offset < 0 then .countdown
      else if offset < STARTING_DURATION then .starting
      else if durTruthy videoDuration = true ∧ videoDuration.getD 0 ≤ offset then .ended
      else .live

/-- State of the server-time module (the module-level variables
`serverTimeOffset`, `isSynced`, `lastSyncTime` in serverTime.ts). -/
structure ServerTimeState where
  serverTimeOffset : ℚ
  isSynced : Bool
  lastSyncTime : ℚ
  deriving DecidableEq

/-- Module state at load time: offset 0, never synced. -/
def initServerTimeState : ServerTimeState :=
  { serverTimeOffset := 0, isSynced := false, lastSyncTime := 0 }

/-- Outcome of the network probe inside `fetchServerTime`: either the parsed
server timestamp, or a failure (network error, non-ok status, or a response
whose parse throws inside the try block). -/
inductive ProbeResult where
  | ok (serverTimestampMs : ℚ)
  | fail
  deriving DecidableEq

/-- Model of `fetchServerTime` in serverTime.ts: returns the fetched server
timestamp on success; on any failure the catch block returns `Date.now()`
(the client clock at the moment of the catch, `fallbackNowMs`), so the
function never rejects. -/
def fetchServerTime (r : ProbeResult) (fallbackNowMs : ℚ) : ℚ :=
  match r with
  | .ok ts => ts
  | .fail => fallbackNowMs

/-- Model of `syncServerTime` in serverTime.ts. `clientBefore` and
`clientAfter` are the `Date.now()` readings taken immediately before and
after the awaited fetch. The new module state is written unconditionally,
whatever the previous state was: the offset becomes
`serverTime - (clientBefore + latency)` with
`latency = (clientAfter - clientBefore) / 2`, `isSynced` becomes true, and
`lastSyncTime` becomes the current client time (modelled by
`clientAfter`). -/
def syncServerTime (r : ProbeResult) (fallbackNowMs clientBefore clientAfter : ℚ) :
    ServerTimeState :=
  let serverTime := fetchServerTime r fallbackNowMs
  let latency := (clientAfter - clientBefore) / 2
  { serverTimeOffset := serverTime - (clientBefore + latency)
    isSynced := true
    lastSyncTime := clientAfter }

/-- Staleness window in milliseconds (`SYNC_INTERVAL` in serverTime.ts,
5 minutes). -/
def SYNC_INTERVAL : ℚ := 5 * 60 * 1000

/-- Model of `getServerTime` in serverTime.ts: a total function returning
`Date.now() + serverTimeOffset`; the Bool component records whether the
fire-and-forget re-sync is triggered (never synced, or the last sync is
stale). The triggered sync is asynchronous and does not change the value
returned by this call. -/
def getServerTime (st : ServerTimeState) (nowMs : ℚ) : ℚ × Bool :=
  (nowMs + st.serverTimeOffset,
   !st.isSynced || decide (nowMs - st.lastSyncTime > SYNC_INTERVAL))

/-- Drift threshold in seconds (`DRIFT_THRESHOLD` in StreamSync.tsx). -/
def DRIFT_THRESHOLD : ℚ := 1 / 2

/-- Minimum time between syncs in milliseconds (`MIN_SYNC_INTERVAL` in
StreamSync.tsx). -/
def MIN_SYNC_INTERVAL : ℚ := 3000

/-- A media element as the drift corrector sees it: playback position and
duration, both in seconds (`HTMLVideoElement.currentTime` / `.duration`). -/
structure VideoEl where
  currentTime : ℚ
  duration : ℚ
  deriving DecidableEq

/-- Model of `getExpectedTime` in StreamSync.tsx: the expected playback
position in seconds, or `none` when there is no schedule or the stream has
not started (negative offset). -/
def getExpectedTime (scheduledStart : Option ℚ) (serverNowMs : ℚ) : Option ℚ :=
  match scheduledStart with
  | none => none
  | some startMs =>
    let offset := getLiveOffset startMs serverNowMs
    if offset < 0 then none else some offset

/-- Model of `syncVideoElement` in StreamSync.tsx: hard-seeks the element to
`expectedTime` when the absolute drift reaches `DRIFT_THRESHOLD`; returns
the updated element and whether a seek happened. -/
def syncVideoElement (video : VideoEl) (expectedTime : ℚ) : VideoEl × Bool :=
  let drift := video.currentTime - expectedTime
  if DRIFT_THRESHOLD ≤ |drift| then
    ({ video with currentTime := expectedTime }, true)
  else (video, false)

/-- Observable result of one `syncVideos` tick: the two optional elements
afterwards, the `lastSyncTime` ref afterwards, whether `onStreamEnd` fired,
and the offset passed to `onSync` when it fired. -/
structure SyncResult where
  primary : Option VideoEl
  face : Option VideoEl
  lastSyncTime : ℚ
  streamEnded : Bool
  syncedOffset : Option ℚ
  deriving DecidableEq

/-- Model of `syncVideos` in StreamSync.tsx: one tick of the dual-target
drift check. Early returns (no primary element, not live, no valid expected
time, primary drift below threshold, or cooldown not elapsed) leave
everything unchanged; the end-detection branch only fires the callback. The
face element is examined only after the primary gates pass, and the
`lastSyncTime` ref is updated exactly when the primary was seeked. -/
def syncVideos (primary face : Option VideoEl) (isLive : Bool)
    (scheduledStart : Option ℚ) (serverNowMs : ℚ) (videoDuration : Option ℚ)
    (lastSyncTime nowMs : ℚ) : SyncResult :=
  let noop : SyncResult :=
    { primary := primary, face := face, lastSyncTime := lastSyncTime,
      streamEnded := false, syncedOffset := none }
  match primary with
  | none => noop
  | some pv =>
    if isLive = false then noop
    else
      match getExpectedTime scheduledStart serverNowMs with
      | none => noop
      | some expectedTime =>
        if durTruthy videoDuration = true ∧ videoDuration.getD 0 ≤ expectedTime then
          { noop with streamEnded := true }
        else
          let timeSinceLastSync := nowMs - lastSyncTime
          let primaryDrift := |pv.currentTime - expectedTime|
          if primaryDrift < DRIFT_THRESHOLD then noop
          else if timeSinceLastSync < MIN_SYNC_INTERVAL then noop
          else
            let p := syncVideoElement pv expectedTime
            let face2 : Option VideoEl :=
              match face with
              | none => none
              | some fv =>
                if DRIFT_THRESHOLD ≤ |fv.currentTime - expectedTime| then
                  some (syncVideoElement fv expectedTime).1
                else some fv
            if p.2 = true then
              { primary := some p.1, face := face2, lastSyncTime := nowMs,
                streamEnded := false, syncedOffset := some expectedTime }
            else
              { primary := some p.1, face := face2, lastSyncTime := lastSyncTime,
                streamEnded := false, syncedOffset := none }

/-- One invocation of the drift check loop: a periodic check tick, or a
visibility-resume (`handleVisibilityChange` sets `lastSyncTime := 0` and then
runs `syncVideos`). Each event carries the inputs read at that instant. -/
inductive SyncEvent where
  | check (primary face : Option VideoEl) (serverNowMs nowMs : ℚ)
  | resume (primary face : Option VideoEl) (serverNowMs nowMs : ℚ)
  deriving DecidableEq

/-- Wall-clock time at which an event runs (its `Date.now()` reading). -/
def eventTime : SyncEvent → ℚ
  | .check _ _ _ nowMs => nowMs
  | .resume _ _ _ nowMs => nowMs

/-- Whether an event is a periodic check (not a visibility resume). -/
def isCheck : SyncEvent → Bool
  | .check _ _ _ _ => true
  | .resume _ _ _ _ => false

/-- The `lastSyncTime` ref after processing one event; `isLive`, the schedule
and the duration are fixed for the run. A resume event replaces the ref by 0
before running the check. -/
def stepLast (isLive : Bool) (sched dur : Option ℚ) (last : ℚ) :
    SyncEvent → ℚ
  | .check p f sn now => (syncVideos p f isLive sched sn dur last now).lastSyncTime
  | .resume p f sn now => (syncVideos p f isLive sched sn dur 0 now).lastSyncTime

/-- Whether the event issues a correction to the primary target (in
`syncVideos` the `onSync` callback fires exactly when the primary was
hard-seeked). -/
def stepCorrects (isLive : Bool) (sched dur : Option ℚ) (last : ℚ) :
    SyncEvent → Bool
  | .check p f sn now => (syncVideos p f isLive sched sn dur last now).syncedOffset.isSome
  | .resume p f sn now => (syncVideos p f isLive sched sn dur 0 now).syncedOffset.isSome

/-- The `lastSyncTime` ref after processing a list of events in order. -/
def runLast (isLive : Bool) (sched dur : Option ℚ) : ℚ → List SyncEvent → ℚ
  | last, [] => last
  | last, e :: es => runLast isLive sched dur (stepLast isLive sched dur last e) es

/-- Model of `syncVideo` inside the `useStreamSync` hook in StreamSync.tsx:
one tick of the hook variant. Returns the optional element afterwards and
the `lastSyncTime` ref afterwards. The seek condition is a disjunction
(above-threshold drift OR elapsed cooldown), guarded by truthiness of
`video.duration` and `expectedTime <= video.duration`. -/
def hookSyncVideo (video : Option VideoEl) (isLive : Bool)
    (scheduledStart : Option ℚ) (serverNowMs lastSyncTime nowMs : ℚ) :
    Option VideoEl × ℚ :=
  match video with
  | none => (video, lastSyncTime)
  | some v =>
    if isLive = false then (video, lastSyncTime)
    else
      match getExpectedTime scheduledStart serverNowMs with
      | none => (video, lastSyncTime)
      | some expectedTime =>
        let drift := |v.currentTime - expectedTime|
        let timeSinceLastSync := nowMs - lastSyncTime
        if DRIFT_THRESHOLD ≤ drift ∨ MIN_SYNC_INTERVAL ≤ timeSinceLastSync then
          if v.duration ≠ 0 ∧ expectedTime ≤ v.duration then
            (some { v with currentTime := expectedTime }, nowMs)
          else (video, lastSyncTime)
        else (video, lastSyncTime)

/-! Lifecycle state machine theorems -/

/-- Helper: with a present schedule and an active session, `calculateState`
is the five-way threshold chain on the live offset, constants unfolded. -/
theorem calculateState_some_true (startMs nowMs : ℚ) (dur : Option ℚ) :
    calculateState (some startMs) true dur nowMs =
      (if getLiveOffset startMs nowMs < -60 then .scheduled
       else if getLiveOffset startMs nowMs < 0 then .countdown
       else if getLiveOffset startMs nowMs < 3 then .starting
       else if durTruthy dur = true ∧ dur.getD 0 ≤ getLiveOffset startMs nowMs then .ended
       else .live) := by
  unfold calculateState COUNTDOWN_THRESHOLD STARTING_DURATION
  norm_num

/-- C1: with a present schedule and an active session, the derived lifecycle
state follows the strict priority chain on
`offset = (authoritativeNow - scheduledStart) / 1000`: `scheduled` for
`offset < -60` (whatever the duration), `countdown` for `-60 <= offset < 0`,
`starting` for `0 <= offset < 3`, `live` for `offset >= 3` with unknown
(falsy) duration, `ended` for `offset >= 3` with known duration
`d <= offset`, and `live` for `offset >= 3` with known duration
`d > offset`; the `>=`/`<` boundary behaviour at -60, 0, 3 and at the
duration is exactly as stated. -/
theorem c1_lifecycle_thresholds (startMs nowMs d : ℚ) (dur : Option ℚ) :
    (getLiveOffset startMs nowMs < -60 →
      calculateState (some startMs) true dur nowMs = .scheduled) ∧
    (-60 ≤ getLiveOffset startMs nowMs → getLiveOffset startMs nowMs < 0 →
      calculateState (some startMs) true dur nowMs = .countdown) ∧
    (0 ≤ getLiveOffset startMs nowMs → getLiveOffset startMs nowMs < 3 →
      calculateState (some startMs) true dur nowMs = .starting) ∧
    (3 ≤ getLiveOffset startMs nowMs → durTruthy dur = false →
      calculateState (some startMs) true dur nowMs = .live) ∧
    (3 ≤ getLiveOffset startMs nowMs → dur = some d → d ≠ 0 →
      d ≤ getLiveOffset startMs nowMs →
      calculateState (some startMs) true dur nowMs = .ended) ∧
    (3 ≤ getLiveOffset startMs nowMs → dur = some d → d ≠ 0 →
      getLiveOffset startMs nowMs < d →
      calculateState (some startMs) true dur nowMs = .live) := by
  rw [calculateState_some_true]
  refine ⟨fun h1 => ?_, fun h1 h2 => ?_, fun h1 h2 => ?_, fun h1 h2 => ?_,
    fun h1 h2 h3 h4 => ?_, fun h1 h2 h3 h4 => ?_⟩
  · rw [if_pos h1]
  · rw [if_neg (by linarith), if_pos h2]
  · rw [if_neg (by linarith), if_neg (by linarith), if_pos h2]
  · rw [if_neg (by linarith), if_neg (by linarith), if_neg (by linarith),
      if_neg (by simp [h2])]
  · subst h2
    rw [if_neg (by linarith), if_neg (by linarith), if_neg (by linarith),
      if_pos ⟨by simp [durTruthy, h3], by simpa using h4⟩]
  · subst h2
    rw [if_neg (by linarith), if_neg (by linarith), if_neg (by linarith),
      if_neg (by rintro ⟨-, hle⟩; simp at hle; linarith)]

/-- C1 witness: the theorem applied at the boundary offsets -60, 0, 3 and at
the duration, and at `offset = -70` with a known but irrelevant duration. -/
theorem c1_lifecycle_thresholds_witness :
    calculateState (some 0) true (some 3600) (-70000) = .scheduled ∧
    calculateState (some 0) true (some 3600) (-60000) = .countdown ∧
    calculateState (some 0) true (some 3600) 0 = .starting ∧
    calculateState (some 0) true none 3000 = .live ∧
    calculateState (some 0) true (some 3600) 3600000 = .ended ∧
    calculateState (some 0) true (some 3600) 3599000 = .live :=
  ⟨(c1_lifecycle_thresholds 0 (-70000) 3600 (some 3600)).1
      (by norm_num [getLiveOffset]),
   (c1_lifecycle_thresholds 0 (-60000) 3600 (some 3600)).2.1
      (by norm_num [getLiveOffset]) (by norm_num [getLiveOffset]),
   (c1_lifecycle_thresholds 0 0 3600 (some 3600)).2.2.1
      (by norm_num [getLiveOffset]) (by norm_num [getLiveOffset]),
   (c1_lifecycle_thresholds 0 3000 0 none).2.2.2.1
      (by norm_num [getLiveOffset]) (by norm_num [durTruthy]),
   (c1_lifecycle_thresholds 0 3600000 3600 (some 3600)).2.2.2.2.1
      (by norm_num [getLiveOffset]) rfl (by norm_num) (by norm_num [getLiveOffset]),
   (c1_lifecycle_thresholds 0 3599000 3600 (some 3600)).2.2.2.2.2
      (by norm_num [getLiveOffset]) rfl (by norm_num) (by norm_num [getLiveOffset])⟩

/-- C5 counterexample: `calculateState` is memoryless, so a later change of
the authoritative now (here from 20000ms to 5000ms, e.g. after a re-sync
shrinks the clock offset) re-admits a duration-exceeded session to `live`:
the same schedule (start 0, duration 10s) yields `ended` at one instant and
`live` at the other, contradicting the claim that no later input change
re-admits `live`. -/
theorem c5_counterexample :
    calculateState (some 0) true (some 10) 20000 = .ended ∧
    calculateState (some 0) true (some 10) 5000 = .live := by
  constructor <;>
    norm_num [calculateState, getLiveOffset, COUNTDOWN_THRESHOLD, STARTING_DURATION, durTruthy]

/-- C5 amended: `calculateState` is a pure function with no memory, so
`ended` is absorbing only along nondecreasing authoritative time with the
schedule and duration held fixed: if the state is `ended` at `now1` then it
is `ended` at every `now2 >= now1`. The transition function never produces
`error` at all. A decrease of the authoritative clock or a changed
`scheduledStart` can re-admit `live`. -/
theorem c5_ended_persistent (startMs now1 now2 : ℚ) (dur : Option ℚ)
    (h : calculateState (some startMs) true dur now1 = .ended)
    (hm : now1 ≤ now2) :
    calculateState (some startMs) true dur now2 = .ended ∧
    ∀ (s : Option ℚ) (a : Bool) (v : Option ℚ) (n : ℚ),
      calculateState s a v n ≠ .error := by
  have hmono : getLiveOffset startMs now1 ≤ getLiveOffset startMs now2 := by
    unfold getLiveOffset
    have h1000 : (0:ℚ) < 1000 := by norm_num
    exact (div_le_div_iff_of_pos_right h1000).mpr (by linarith)
  constructor
  · rw [calculateState_some_true] at h
    split_ifs at h with h1 h2 h3 h4
    rw [calculateState_some_true]
    rw [if_neg (by linarith), if_neg (by linarith), if_neg (by linarith),
      if_pos ⟨h4.1, le_trans h4.2 hmono⟩]
  · intro s a v n
    cases s with
    | none => simp [calculateState]
    | some st =>
      cases a with
      | false => simp [calculateState]
      | true =>
        rw [calculateState_some_true]
        split_ifs <;> simp

/-- C5 witness: the amended theorem applied to start 0, duration 10s,
ended at 20000ms, still ended at 30000ms. -/
theorem c5_ended_persistent_witness :
    calculateState (some 0) true (some 10) 30000 = .ended :=
  (c5_ended_persistent 0 20000 30000 (some 10)
    (by norm_num [calculateState, getLiveOffset, COUNTDOWN_THRESHOLD,
      STARTING_DURATION, durTruthy])
    (by norm_num)).1

/-- C9: a `videoDuration` equal to 0 is falsy, hence treated as unknown:
the lifecycle function yields `live` for every offset at least 3 (never
`ended`), and a `syncVideos` tick never signals stream end with duration 0,
whatever the other inputs. -/
theorem c9_zero_duration_unknown (startMs nowMs : ℚ)
    (h : 3 ≤ getLiveOffset startMs nowMs) :
    calculateState (some startMs) true (some 0) nowMs = .live ∧
    ∀ (p f : Option VideoEl) (l : Bool) (sc : Option ℚ) (sn last now : ℚ),
      (syncVideos p f l sc sn (some 0) last now).streamEnded = false := by
  constructor
  · rw [calculateState_some_true]
    rw [if_neg (by linarith), if_neg (by linarith), if_neg (by linarith),
      if_neg (by rintro ⟨ht, -⟩; simp [durTruthy] at ht)]
  · intro p f l sc sn last now
    unfold syncVideos
    cases p with
    | none => rfl
    | some pv =>
      cases l with
      | false => rfl
      | true =>
        simp only [if_neg (by simp : ¬ (true = false))]
        cases hE : getExpectedTime sc sn with
        | none => simp only [hE]
        | some e =>
          simp only [hE]
          rw [if_neg (by rintro ⟨ht, -⟩; simp [durTruthy] at ht)]
          split_ifs <;> rfl

/-- C9 witness: the theorem applied at offset 5s with duration 0. -/
theorem c9_zero_duration_unknown_witness :
    calculateState (some 0) true (some 0) 5000 = .live :=
  (c9_zero_duration_unknown 0 5000 (by norm_num [getLiveOffset])).1

/-! Server time estimator theorems -/

/-- C2 counterexample: starting from the initial state (no probe has ever
succeeded: offset 0, isSynced false), a single failed probe (round trip
from 0ms to 100ms, the fallback client time being 100ms) changes
`offsetMillis` from 0 to 50 and flips `isSynced` from false to true,
because `fetchServerTime` falls back to the client clock instead of
propagating the failure. -/
theorem c2_counterexample :
    (syncServerTime .fail 100 0 100).serverTimeOffset ≠
      initServerTimeState.serverTimeOffset ∧
    (syncServerTime .fail 100 0 100).isSynced ≠ initServerTimeState.isSynced := by
  constructor
  · norm_num [syncServerTime, fetchServerTime, initServerTimeState]
  · norm_num [syncServerTime, fetchServerTime, initServerTimeState]

/-- C2 amended: probe failures are swallowed by the client-time fallback in
`fetchServerTime`, so a failed probe does change the stored state rather
than retaining it: whatever the previous state was, the module ends up with
offset `fallbackNow - (clientBefore + (clientAfter - clientBefore) / 2)`
(the client clock plus about half the round trip) and with `isSynced`
unconditionally true. -/
theorem c2_failed_probe_overwrites (fallbackNowMs clientBefore clientAfter : ℚ) :
    syncServerTime .fail fallbackNowMs clientBefore clientAfter =
      { serverTimeOffset :=
          fallbackNowMs - (clientBefore + (clientAfter - clientBefore) / 2)
        isSynced := true
        lastSyncTime := clientAfter } := rfl

/-- C7: a successful probe stores
`offset = serverTimestamp - (t0 + (t1 - t0) / 2)`, where t0 and t1 are the
local clock readings immediately before the call and after receipt; with
zero round-trip time (t1 = t0 = localNow) the stored offset is exactly
`serverTimestamp - localNow`. -/
theorem c7_offset_formula (ts fallbackNowMs t0 t1 : ℚ) :
    (syncServerTime (.ok ts) fallbackNowMs t0 t1).serverTimeOffset =
      ts - (t0 + (t1 - t0) / 2) ∧
    (syncServerTime (.ok ts) fallbackNowMs t0 t0).serverTimeOffset = ts - t0 := by
  refine ⟨rfl, ?_⟩
  show ts - (t0 + (t0 - t0) / 2) = ts - t0
  ring

/-- C8 counterexample: after a single failed probe from the initial state
(so no probe has ever succeeded), the stored offset is 50 rather than 0:
`getServerTime` at local time 1000ms returns 1050, not the local clock
unmodified, and, `isSynced` having been set by the failed probe, it does
not trigger an asynchronous probe either. -/
theorem c8_counterexample :
    (getServerTime (syncServerTime .fail 100 0 100) 1000).1 ≠ 1000 ∧
    (getServerTime (syncServerTime .fail 100 0 100) 1000).2 = false := by
  constructor
  · norm_num [getServerTime, syncServerTime, fetchServerTime]
  · norm_num [getServerTime, syncServerTime, fetchServerTime, SYNC_INTERVAL]

/-- C8 amended: `getServerTime` is a total function (the model of a call
that never throws) and always returns `localNow + offsetMillis`; in the
initial state, before any probe has completed, the offset is 0, so it
returns the local clock unmodified and does trigger the asynchronous
fire-and-forget probe. -/
theorem c8_getServerTime_total (st : ServerTimeState) (nowMs : ℚ) :
    (getServerTime st nowMs).1 = nowMs + st.serverTimeOffset ∧
    (getServerTime initServerTimeState nowMs).1 = nowMs ∧
    (getServerTime initServerTimeState nowMs).2 = true :=
  ⟨rfl, by simp [getServerTime, initServerTimeState], rfl⟩

/-! Drift corrector theorems -/

/-- Helper: with a schedule and a non-negative live offset, the expected
playback position is that offset. -/
theorem getExpectedTime_of_nonneg (s sn : ℚ) (he : 0 ≤ getLiveOffset s sn) :
    getExpectedTime (some s) sn = some (getLiveOffset s sn) := by
  simp only [getExpectedTime]
  rw [if_neg (not_lt.mpr he)]

/-- Helper: with a primary element attached, the stream live, a schedule
present and a non-negative live offset, one `syncVideos` tick is the gate
chain: end signal when the duration is truthy and reached; otherwise a
no-op when the primary drift is under the threshold, or when the cooldown
has not elapsed; otherwise the primary is hard-seeked to the offset, the
face element (when present) is seeked exactly when its own drift reaches
the threshold, the cooldown ref becomes `now` and the sync callback fires
with the offset. -/
theorem syncVideos_gates (pv : VideoEl) (face : Option VideoEl) (s sn : ℚ)
    (dur : Option ℚ) (last now : ℚ) (he : 0 ≤ getLiveOffset s sn) :
    syncVideos (some pv) face true (some s) sn dur last now =
      (if durTruthy dur = true ∧ dur.getD 0 ≤ getLiveOffset s sn then
        { primary := some pv, face := face, lastSyncTime := last,
          streamEnded := true, syncedOffset := none }
      else if |pv.currentTime - getLiveOffset s sn| < DRIFT_THRESHOLD then
        { primary := some pv, face := face, lastSyncTime := last,
          streamEnded := false, syncedOffset := none }
      else if now - last < MIN_SYNC_INTERVAL then
        { primary := some pv, face := face, lastSyncTime := last,
          streamEnded := false, syncedOffset := none }
      else
        { primary := some { pv with currentTime := getLiveOffset s sn },
          face := match face with
            | none => none
            | some fv =>
              if DRIFT_THRESHOLD ≤ |fv.currentTime - getLiveOffset s sn| then
                some { fv with currentTime := getLiveOffset s sn }
              else some fv,
          lastSyncTime := now, streamEnded := false,
          syncedOffset := some (getLiveOffset s sn) }) := by
  have hTF : ¬ (true = false) := by simp
  have hseekP : ¬ |pv.currentTime - getLiveOffset s sn| < DRIFT_THRESHOLD →
      syncVideoElement pv (getLiveOffset s sn) =
        ({ pv with currentTime := getLiveOffset s sn }, true) := by
    intro hd
    unfold syncVideoElement
    rw [if_pos (not_lt.mp hd)]
  cases face with
  | none =>
    simp only [syncVideos, getExpectedTime_of_nonneg s sn he, if_neg hTF]
    by_cases hg : durTruthy dur = true ∧ dur.getD 0 ≤ getLiveOffset s sn
    · rw [if_pos hg, if_pos hg]
    · rw [if_neg hg, if_neg hg]
      by_cases hd : |pv.currentTime - getLiveOffset s sn| < DRIFT_THRESHOLD
      · rw [if_pos hd, if_pos hd]
      · rw [if_neg hd, if_neg hd]
        by_cases hc : now - last < MIN_SYNC_INTERVAL
        · rw [if_pos hc, if_pos hc]
        · rw [if_neg hc, if_neg hc, hseekP hd]
          rfl
  | some fv =>
    simp only [syncVideos, getExpectedTime_of_nonneg s sn he, if_neg hTF]
    by_cases hg : durTruthy dur = true ∧ dur.getD 0 ≤ getLiveOffset s sn
    · rw [if_pos hg, if_pos hg]
    · rw [if_neg hg, if_neg hg]
      by_cases hd : |pv.currentTime - getLiveOffset s sn| < DRIFT_THRESHOLD
      · rw [if_pos hd, if_pos hd]
      · rw [if_neg hd, if_neg hd]
        by_cases hc : now - last < MIN_SYNC_INTERVAL
        · rw [if_pos hc, if_pos hc]
        · rw [if_neg hc, if_neg hc, hseekP hd]
          by_cases hf : DRIFT_THRESHOLD ≤ |fv.currentTime - getLiveOffset s sn|
          · have hseekF : syncVideoElement fv (getLiveOffset s sn) =
                ({ fv with currentTime := getLiveOffset s sn }, true) := by
              unfold syncVideoElement
              rw [if_pos hf]
            rw [if_pos hf, if_pos hf, hseekF]
            rfl
          · rw [if_neg hf, if_neg hf]
            rfl

/-- C3: in a drift check of the primary target with a valid non-negative
expected position (stream live, schedule present, duration not exceeded), a
primary drift strictly under 0.5s performs no seek — the primary element is
returned unchanged — while a drift of at least 0.5s with the 3000ms
cooldown elapsed hard-seeks the primary exactly to the expected position. -/
theorem c3_drift_threshold (pv : VideoEl) (face : Option VideoEl)
    (s sn : ℚ) (dur : Option ℚ) (last now : ℚ)
    (he : 0 ≤ getLiveOffset s sn)
    (hg : ¬(durTruthy dur = true ∧ dur.getD 0 ≤ getLiveOffset s sn)) :
    (|pv.currentTime - getLiveOffset s sn| < 1 / 2 →
      (syncVideos (some pv) face true (some s) sn dur last now).primary = some pv) ∧
    (1 / 2 ≤ |pv.currentTime - getLiveOffset s sn| → 3000 ≤ now - last →
      (syncVideos (some pv) face true (some s) sn dur last now).primary =
        some { pv with currentTime := getLiveOffset s sn }) := by
  rw [syncVideos_gates pv face s sn dur last now he, if_neg hg]
  constructor
  · intro hd
    rw [if_pos (show |pv.currentTime - getLiveOffset s sn| < DRIFT_THRESHOLD from hd)]
  · intro hd hc
    rw [if_neg (show ¬|pv.currentTime - getLiveOffset s sn| < DRIFT_THRESHOLD from
        not_lt.mpr hd),
      if_neg (show ¬now - last < MIN_SYNC_INTERVAL from not_lt.mpr hc)]

/-- C3 witness: expected position 100.6s; a primary at 100.3s (drift 0.3)
is untouched, a primary at 100.0s (drift 0.6, cooldown elapsed) is seeked
to 100.6s. -/
theorem c3_drift_threshold_witness :
    (syncVideos (some ⟨100.3, 3600⟩) none true (some 0) 100600 none 0 5000).primary
      = some ⟨100.3, 3600⟩ ∧
    (syncVideos (some ⟨100, 3600⟩) none true (some 0) 100600 none 0 5000).primary
      = some ⟨100.6, 3600⟩ := by
  constructor
  · exact (c3_drift_threshold ⟨100.3, 3600⟩ none 0 100600 none 0 5000
      (by norm_num [getLiveOffset]) (by norm_num [durTruthy])).1
      (by norm_num [getLiveOffset, abs_lt])
  · have h := (c3_drift_threshold ⟨100, 3600⟩ none 0 100600 none 0 5000
      (by norm_num [getLiveOffset]) (by norm_num [durTruthy])).2
      (by norm_num [getLiveOffset, le_abs]) (by norm_num)
    rw [h]
    norm_num [getLiveOffset]

/-- C6 counterexample: expected position 10s, cooldown long elapsed; the
face element is at 100s, so its own drift is 90s, far above the 0.5s
threshold, but the primary sits exactly at the expected position (drift 0),
so the tick returns at the primary gate and the face element is left
unchanged — the secondary is not corrected independently of the primary
drift. -/
theorem c6_counterexample :
    (1 / 2 : ℚ) ≤ |(100 : ℚ) - getLiveOffset 0 10000| ∧
    (syncVideos (some ⟨10, 3600⟩) (some ⟨100, 3600⟩) true (some 0) 10000
        none 0 100000).face = some ⟨100, 3600⟩ := by
  constructor
  · norm_num [getLiveOffset]
  · norm_num [syncVideos, getExpectedTime, getLiveOffset, durTruthy,
      DRIFT_THRESHOLD, MIN_SYNC_INTERVAL, syncVideoElement]

/-- C6 amended: in the dual-target case the secondary is examined only when
the primary gates pass. When the primary drift is under the threshold the
face element is untouched whatever its own drift; when the primary drift
reaches 0.5s and the cooldown has elapsed, the secondary is corrected
exactly when its own drift reaches 0.5s, against the same expected value as
the primary, the shared cooldown ref is reset to `now` by the primary
correction, and the sync callback fires keyed to the primary with the
expected value. -/
theorem c6_dual_target (pv fv : VideoEl) (face : Option VideoEl) (s sn : ℚ)
    (dur : Option ℚ) (last now : ℚ)
    (he : 0 ≤ getLiveOffset s sn)
    (hg : ¬(durTruthy dur = true ∧ dur.getD 0 ≤ getLiveOffset s sn)) :
    (|pv.currentTime - getLiveOffset s sn| < 1 / 2 →
      (syncVideos (some pv) face true (some s) sn dur last now).face = face) ∧
    (now - last < 3000 →
      (syncVideos (some pv) face true (some s) sn dur last now).face = face) ∧
    (1 / 2 ≤ |pv.currentTime - getLiveOffset s sn| → 3000 ≤ now - last →
      (syncVideos (some pv) (some fv) true (some s) sn dur last now).face =
        some (if 1 / 2 ≤ |fv.currentTime - getLiveOffset s sn| then
          { fv with currentTime := getLiveOffset s sn } else fv) ∧
      (syncVideos (some pv) (some fv) true (some s) sn dur last now).lastSyncTime
        = now ∧
      (syncVideos (some pv) (some fv) true (some s) sn dur last now).syncedOffset
        = some (getLiveOffset s sn)) := by
  refine ⟨fun hd => ?_, fun hc => ?_, fun hd hc => ?_⟩
  · rw [syncVideos_gates pv face s sn dur last now he, if_neg hg,
      if_pos (show |pv.currentTime - getLiveOffset s sn| < DRIFT_THRESHOLD from hd)]
  · rw [syncVideos_gates pv face s sn dur last now he, if_neg hg]
    by_cases hd : |pv.currentTime - getLiveOffset s sn| < DRIFT_THRESHOLD
    · rw [if_pos hd]
    · rw [if_neg hd,
        if_pos (show now - last < MIN_SYNC_INTERVAL from hc)]
  · rw [syncVideos_gates pv (some fv) s sn dur last now he, if_neg hg,
      if_neg (show ¬|pv.currentTime - getLiveOffset s sn| < DRIFT_THRESHOLD from
        not_lt.mpr hd),
      if_neg (show ¬now - last < MIN_SYNC_INTERVAL from not_lt.mpr hc)]
    refine ⟨?_, rfl, rfl⟩
    show (if DRIFT_THRESHOLD ≤ |fv.currentTime - getLiveOffset s sn| then
        some { fv with currentTime := getLiveOffset s sn } else some fv) =
      some (if 1 / 2 ≤ |fv.currentTime - getLiveOffset s sn| then
        { fv with currentTime := getLiveOffset s sn } else fv)
    by_cases hf : DRIFT_THRESHOLD ≤ |fv.currentTime - getLiveOffset s sn|
    · rw [if_pos hf, if_pos (show (1:ℚ) / 2 ≤ |fv.currentTime - getLiveOffset s sn| from hf)]
    · rw [if_neg hf, if_neg (show ¬(1:ℚ) / 2 ≤ |fv.currentTime - getLiveOffset s sn| from hf)]

/-- C6 witness: primary at 100.0s against expected 100.6s (drift 0.6,
cooldown elapsed): the face at 100.3s (own drift 0.3) is untouched while
the cooldown resets to now and the callback fires with 100.6. -/
theorem c6_dual_target_witness :
    (syncVideos (some ⟨100, 3600⟩) (some ⟨100.3, 3600⟩) true (some 0) 100600
        none 0 5000).face = some ⟨100.3, 3600⟩ ∧
    (syncVideos (some ⟨100, 3600⟩) (some ⟨100.3, 3600⟩) true (some 0) 100600
        none 0 5000).lastSyncTime = 5000 := by
  have h := (c6_dual_target ⟨100, 3600⟩ ⟨100.3, 3600⟩ (some ⟨100.3, 3600⟩)
      0 100600 none 0 5000
      (by norm_num [getLiveOffset]) (by norm_num [durTruthy])).2.2
      (by norm_num [getLiveOffset, le_abs]) (by norm_num)
  refine ⟨?_, h.2.1⟩
  rw [h.1, if_neg (by norm_num [getLiveOffset, not_le, abs_lt])]

/-- C10: in the `useStreamSync` hook variant, a tick with a ready video
(truthy duration), the stream live, and a valid expected position between 0
and the video duration hard-seeks the video to the expected position and
stamps the cooldown whenever the absolute drift is at least 0.5s OR at
least 3000ms have passed since the last sync — so it seeks on
above-threshold drift regardless of the cooldown, and at least every 3
seconds even at zero drift. -/
theorem c10_hook_sync (v : VideoEl) (s sn last now : ℚ)
    (hd : v.duration ≠ 0)
    (he : 0 ≤ getLiveOffset s sn)
    (hle : getLiveOffset s sn ≤ v.duration)
    (hfire : 1 / 2 ≤ |v.currentTime - getLiveOffset s sn| ∨ 3000 ≤ now - last) :
    hookSyncVideo (some v) true (some s) sn last now =
      (some { v with currentTime := getLiveOffset s sn }, now) := by
  have hTF : ¬ (true = false) := by simp
  simp only [hookSyncVideo, getExpectedTime_of_nonneg s sn he, if_neg hTF]
  rw [if_pos (show DRIFT_THRESHOLD ≤ |v.currentTime - getLiveOffset s sn| ∨
      MIN_SYNC_INTERVAL ≤ now - last from hfire),
    if_pos ⟨hd, hle⟩]

/-- C10 witness: the hook seeks on drift 10s with the cooldown not elapsed
(time since last sync 0), and on drift 0 with exactly 3000ms elapsed. -/
theorem c10_hook_sync_witness :
    hookSyncVideo (some ⟨0, 3600⟩) true (some 0) 10000 0 0
      = (some ⟨10, 3600⟩, 0) ∧
    hookSyncVideo (some ⟨10, 3600⟩) true (some 0) 10000 0 3000
      = (some ⟨10, 3600⟩, 3000) := by
  constructor
  · have h := c10_hook_sync ⟨0, 3600⟩ 0 10000 0 0 (by norm_num)
      (by norm_num [getLiveOffset]) (by norm_num [getLiveOffset])
      (Or.inl (by norm_num [getLiveOffset, le_abs]))
    rw [h]
    norm_num [getLiveOffset]
  · have h := c10_hook_sync ⟨10, 3600⟩ 0 10000 0 3000 (by norm_num)
      (by norm_num [getLiveOffset]) (by norm_num [getLiveOffset])
      (Or.inr (by norm_num))
    rw [h]
    norm_num [getLiveOffset]

/-- Helper: in any `syncVideos` tick, a primary correction (the sync
callback firing) stamps the cooldown ref with `now` and can only happen
when at least `MIN_SYNC_INTERVAL` has passed since the ref value; a tick
with no correction leaves the ref unchanged. -/
theorem syncVideos_correction_ref (p f : Option VideoEl) (l : Bool)
    (sc : Option ℚ) (sn : ℚ) (d : Option ℚ) (last now : ℚ) :
    ((syncVideos p f l sc sn d last now).syncedOffset.isSome = true →
      (syncVideos p f l sc sn d last now).lastSyncTime = now ∧
        MIN_SYNC_INTERVAL ≤ now - last) ∧
    ((syncVideos p f l sc sn d last now).syncedOffset.isSome = false →
      (syncVideos p f l sc sn d last now).lastSyncTime = last) := by
  have hTF : ¬ (true = false) := by simp
  cases p with
  | none => simp [syncVideos]
  | some pv =>
    cases l with
    | false => simp [syncVideos]
    | true =>
      cases hE : getExpectedTime sc sn with
      | none => simp [syncVideos, hE]
      | some e =>
        simp only [syncVideos, hE, if_neg hTF]
        by_cases hg : durTruthy d = true ∧ d.getD 0 ≤ e
        · rw [if_pos hg]
          simp
        · rw [if_neg hg]
          by_cases hdr : |pv.currentTime - e| < DRIFT_THRESHOLD
          · rw [if_pos hdr]
            simp
          · rw [if_neg hdr]
            by_cases hc : now - last < MIN_SYNC_INTERVAL
            · rw [if_pos hc]
              simp
            · rw [if_neg hc]
              have hseek : syncVideoElement pv e =
                  ({ pv with currentTime := e }, true) := by
                unfold syncVideoElement
                rw [if_pos (not_lt.mp hdr)]
              rw [hseek]
              exact ⟨fun _ => ⟨rfl, not_lt.mp hc⟩, fun hf => by simp at hf⟩

/-- Helper: across check-only event segments, the cooldown ref never drops
below a value it has already reached at or above. -/
theorem runLast_lower (il : Bool) (sc d : Option ℚ) (mid : List SyncEvent)
    (hmid : ∀ e ∈ mid, isCheck e = true) (l t1 : ℚ) (hl : t1 ≤ l) :
    t1 ≤ runLast il sc d l mid := by
  induction mid generalizing l with
  | nil => exact hl
  | cons e es ih =>
    have he : isCheck e = true := hmid e (List.mem_cons_self e es)
    have htail : ∀ x ∈ es, isCheck x = true :=
      fun x hx => hmid x (List.mem_cons_of_mem _ hx)
    cases e with
    | check p f sn now =>
      refine ih htail _ ?_
      show t1 ≤ (syncVideos p f il sc sn d l now).lastSyncTime
      by_cases hc : (syncVideos p f il sc sn d l now).syncedOffset.isSome = true
      · have hcr := (syncVideos_correction_ref p f il sc sn d l now).1 hc
        have hpos : (0:ℚ) < MIN_SYNC_INTERVAL := by norm_num [MIN_SYNC_INTERVAL]
        rw [hcr.1]
        linarith [hcr.2]
      · have hc2 : (syncVideos p f il sc sn d l now).syncedOffset.isSome = false := by
          simpa using hc
        rw [(syncVideos_correction_ref p f il sc sn d l now).2 hc2]
        exact hl
    | resume p f sn now => exact absurd he (by simp [isCheck])

/-- C4: corrections are rate limited. If an event `e1` (check or resume)
issues a correction, and after any intermediate check-only events (no
visibility resume in between, however often drift exceeds the threshold) a
periodic check `e2` issues another correction, then the two corrections are
at least `MIN_SYNC_INTERVAL` (3000ms) apart. The exception is exactly the
visibility-resume path: a resume event behaves as a check with the cooldown
ref reset to 0, so it may correct immediately; and since a correcting
resume falls under the `e1` case above, the bypass lasts exactly once — the
next check correction is again a full interval away. -/
theorem c4_rate_limit (il : Bool) (sc d : Option ℚ) (last0 : ℚ)
    (e1 e2 : SyncEvent) (mid : List SyncEvent)
    (h1 : stepCorrects il sc d last0 e1 = true)
    (hmid : ∀ e ∈ mid, isCheck e = true)
    (h2ck : isCheck e2 = true)
    (h2 : stepCorrects il sc d
        (runLast il sc d (stepLast il sc d last0 e1) mid) e2 = true) :
    MIN_SYNC_INTERVAL ≤ eventTime e2 - eventTime e1 ∧
    ∀ (p f : Option VideoEl) (sn now lastAny : ℚ),
      stepLast il sc d lastAny (.resume p f sn now) =
        stepLast il sc d 0 (.check p f sn now) ∧
      stepCorrects il sc d lastAny (.resume p f sn now) =
        stepCorrects il sc d 0 (.check p f sn now) := by
  refine ⟨?_, fun p f sn now lastAny => ⟨rfl, rfl⟩⟩
  have hL1 : stepLast il sc d last0 e1 = eventTime e1 := by
    cases e1 with
    | check p f sn now =>
      exact ((syncVideos_correction_ref p f il sc sn d last0 now).1 h1).1
    | resume p f sn now =>
      exact ((syncVideos_correction_ref p f il sc sn d 0 now).1 h1).1
  have hge : eventTime e1 ≤ runLast il sc d (stepLast il sc d last0 e1) mid :=
    runLast_lower il sc d mid hmid _ _ (le_of_eq hL1.symm)
  cases e2 with
  | check p f sn now =>
    have hcr := (syncVideos_correction_ref p f il sc sn d
      (runLast il sc d (stepLast il sc d last0 e1) mid) now).1 h2
    show MIN_SYNC_INTERVAL ≤ now - eventTime e1
    linarith [hcr.2, hge]
  | resume p f sn now => exact absurd h2ck (by simp [isCheck])

/-- C4 witness: a correcting check at 5000ms followed, with no resume in
between, by a correcting check at 9000ms; the theorem yields the 3000ms
separation. -/
theorem c4_rate_limit_witness :
    stepCorrects true (some 0) none 0
        (.check (some ⟨100, 3600⟩) none 10000 5000) = true ∧
    stepCorrects true (some 0) none
        (runLast true (some 0) none
          (stepLast true (some 0) none 0
            (.check (some ⟨100, 3600⟩) none 10000 5000)) [])
        (.check (some ⟨100, 3600⟩) none 20000 9000) = true ∧
    MIN_SYNC_INTERVAL ≤ (9000 : ℚ) - 5000 := by
  have hc1 : stepCorrects true (some 0) none 0
      (.check (some ⟨100, 3600⟩) none 10000 5000) = true := by
    norm_num [stepCorrects, syncVideos, getExpectedTime, getLiveOffset,
      durTruthy, DRIFT_THRESHOLD, MIN_SYNC_INTERVAL, syncVideoElement]
  have hc2 : stepCorrects true (some 0) none
      (runLast true (some 0) none
        (stepLast true (some 0) none 0
          (.check (some ⟨100, 3600⟩) none 10000 5000)) [])
      (.check (some ⟨100, 3600⟩) none 20000 9000) = true := by
    norm_num [stepCorrects, stepLast, runLast, syncVideos, getExpectedTime,
      getLiveOffset, durTruthy, DRIFT_THRESHOLD, MIN_SYNC_INTERVAL,
      syncVideoElement]
  exact ⟨hc1, hc2, (c4_rate_limit true (some 0) none 0
      (.check (some ⟨100, 3600⟩) none 10000 5000)
      (.check (some ⟨100, 3600⟩) none 20000 9000) [] hc1
      (fun e he => absurd he (List.not_mem_nil e)) rfl hc2).1⟩
